import Mathlib

/-!
Shallow embedding of `src/Sardines.py` (a pygame "Shark Chase" arcade game).

Conventions of the embedding:
* Python floats are modelled by real numbers (`ℝ`); every runtime float value
  is a rational number, so `ℝ` contains all values the program can produce.
* `pygame.math.Vector2` is modelled by `ℝ × ℝ`; `Vector2.length` is the
  Euclidean norm and `normalize_ip` divides by the length.
* `pygame.Rect` (as built by `GameObject.get_rect`, line 55-57) stores C ints;
  Python's `int(...)` conversion truncates toward zero (`pyInt`).
* `Rect.colliderect` is modelled after pygame 2's implementation
  (`src_c/rect.c`, `_pg_do_rects_intersect`): rects with a zero width or
  height never collide, negative sizes are normalized via min/max, and the
  comparisons are strict (touching edges do not collide).  The game requires
  pygame ≥ 2.0 (it passes `border_radius` to `pygame.draw.rect`).
* `pygame.time.get_ticks()` is passed in as an explicit `now : ℤ` (ms).
* `random.*` draws are supplied by an explicit `Rng` oracle.
* Rendering, fonts and the background bubbles are pure presentation and are
  not part of the embedded state.
-/

namespace Sardines

/-- SCREEN_WIDTH (line 9). -/
def screenWidth : ℝ := 800

/-- SCREEN_HEIGHT (line 10). -/
def screenHeight : ℝ := 600

/-- A `pygame.Rect` as produced by `GameObject.get_rect`: integer fields. -/
structure PyRect where
  x : ℤ
  y : ℤ
  w : ℤ
  h : ℤ
deriving DecidableEq

/-- Python `int(...)` applied to a float: truncation toward zero. -/
noncomputable def pyInt (r : ℝ) : ℤ := if 0 ≤ r then ⌊r⌋ else ⌈r⌉

/-- GameObject.get_rect(shrink) (lines 55-57): shrink the box inward by
`shrink` on all four sides, converting each field with Python `int`. -/
noncomputable def getRect (pos size : ℝ × ℝ) (shrink : ℝ) : PyRect :=
  ⟨pyInt (pos.1 + shrink), pyInt (pos.2 + shrink),
   pyInt (size.1 - 2 * shrink), pyInt (size.2 - 2 * shrink)⟩

/-- pygame 2 `Rect.colliderect` (src_c/rect.c, `_pg_do_rects_intersect`):
zero-sized rects never collide; otherwise the test normalizes negative
sizes via min/max and uses strict comparisons on both axes. -/
def colliderect (A B : PyRect) : Bool :=
  if A.w = 0 ∨ A.h = 0 ∨ B.w = 0 ∨ B.h = 0 then false
  else
    decide (min A.x (A.x + A.w) < max B.x (B.x + B.w)) &&
    decide (min A.y (A.y + A.h) < max B.y (B.y + B.h)) &&
    decide (max A.x (A.x + A.w) > min B.x (B.x + B.w)) &&
    decide (max A.y (A.y + A.h) > min B.y (B.y + B.h))

/-- The collision predicate of the game with an arbitrary shrink, i.e.
`a.get_rect(s).colliderect(b.get_rect(s))` for entities with the given
positions and sizes (the spec's `overlaps(a, b, shrink)`). -/
noncomputable def overlaps (posA sizeA posB sizeB : ℝ × ℝ) (s : ℝ) : Bool :=
  colliderect (getRect posA sizeA s) (getRect posB sizeB s)

/-- GameObject.collides_with (lines 58-61): fixed buffer of 18 pixels. -/
noncomputable def collidesWith (posA sizeA posB sizeB : ℝ × ℝ) : Bool :=
  overlaps posA sizeA posB sizeB 18

/-- pygame `Rect.center`: `(x + w // 2, y + h // 2)` with integer division. -/
def rectCenter (r : PyRect) : ℤ × ℤ := (r.x + r.w / 2, r.y + r.h / 2)

/-- Vector2.length: Euclidean norm. -/
noncomputable def vmag (v : ℝ × ℝ) : ℝ := Real.sqrt (v.1 ^ 2 + v.2 ^ 2)

/-- Vector2.normalize_ip: divide both components by the length (only ever
called by the game under a `length() > 0` guard). -/
noncomputable def vnorm (v : ℝ × ℝ) : ℝ × ℝ := (v.1 / vmag v, v.2 / vmag v)

/-- Snapshot of the held directional keys.  Each field is the disjunction the
game tests: `left = K_LEFT or K_a`, `right = K_RIGHT or K_d`,
`up = K_UP or K_w`, `down = K_DOWN or K_s` (lines 76-85). -/
structure Keys where
  left : Bool
  right : Bool
  up : Bool
  down : Bool
deriving DecidableEq

/-- No key held. -/
def keysNone : Keys := ⟨false, false, false, false⟩

/-- Only the left key held. -/
def keysLeft : Keys := ⟨true, false, false, false⟩

/-- The raw intent vector of Fish.update (lines 75-85): `velocity` starts at
`(0, 0)`; the left branch writes `x = -1`, then the right branch overwrites
with `x = 1`; the up branch writes `y = -1`, then the down branch overwrites
with `y = 1`.  The sequential overwrites are modelled by nested ifs in the
same order as the source. -/
def rawVelocity (k : Keys) : ℤ × ℤ :=
  (if k.right then 1 else if k.left then -1 else 0,
   if k.down then 1 else if k.up then -1 else 0)

/-- The `direction` facing update of Fish.update (lines 76-81): left writes
`-1`, then right overwrites with `1`; otherwise the old value is kept. -/
def newDirection (k : Keys) (dir : ℤ) : ℤ :=
  if k.right then 1 else if k.left then -1 else dir

/-- The Player entity (class Fish).  Its size is fixed by the constructor. -/
structure Fish where
  pos : ℝ × ℝ
  speed : ℝ
  invincible : Bool
  invincibleTimer : ℝ
  direction : ℤ

/-- Fish size: `super().__init__(x, y, 100, 70)` (line 68). -/
def fishSize : ℝ × ℝ := (100, 70)

/-- Shark size: `super().__init__(x, y, 140, 90)` (line 109). -/
def sharkSize : ℝ × ℝ := (140, 90)

/-- Powerup size: `super().__init__(x, y, 30, 30)` (line 135). -/
def powerupSize : ℝ × ℝ := (30, 30)

/-- The per-frame displacement of Fish.update (lines 86-88): normalize the
raw intent when its length is positive, then scale by `speed * dt`. -/
noncomputable def moveOffset (k : Keys) (speed dt : ℝ) : ℝ × ℝ :=
  let vraw : ℝ × ℝ := (((rawVelocity k).1 : ℝ), ((rawVelocity k).2 : ℝ))
  let v := if 0 < vmag vraw then vnorm vraw else vraw
  (v.1 * speed * dt, v.2 * speed * dt)

/-- Fish.update (lines 74-94): move by the normalized intent scaled by
`speed * dt`, clamp the position so the whole box stays on screen, update
the facing, and run the invincibility countdown. -/
noncomputable def fishUpdate (f : Fish) (dt : ℝ) (k : Keys) : Fish :=
  { pos :=
      (max 0 (min (screenWidth - fishSize.1) (f.pos.1 + (moveOffset k f.speed dt).1)),
       max 0 (min (screenHeight - fishSize.2) (f.pos.2 + (moveOffset k f.speed dt).2))),
    speed := f.speed,
    invincible := if f.invincible then
        (if f.invincibleTimer - dt ≤ 0 then false else true)
      else f.invincible,
    invincibleTimer := if f.invincible then f.invincibleTimer - dt else f.invincibleTimer,
    direction := newDirection k f.direction }

/-- A Pursuer (class Shark). -/
structure Shark where
  pos : ℝ × ℝ
  speed : ℝ

/-- Shark.update (lines 111-120): head toward the target, add the random
jitter `jit` (the two `random.uniform(-0.3, 0.3)` draws), re-normalize, and
move; when the target coincides with the position nothing happens. -/
noncomputable def sharkUpdate (s : Shark) (dt : ℝ) (target jit : ℝ × ℝ) : Shark :=
  let d : ℝ × ℝ := (target.1 - s.pos.1, target.2 - s.pos.2)
  if 0 < vmag d then
    let d1 := vnorm d
    let d2 : ℝ × ℝ := (d1.1 + jit.1, d1.2 + jit.2)
    let d3 := if 0 < vmag d2 then vnorm d2 else d2
    { s with pos := (s.pos.1 + d3.1 * s.speed * dt, s.pos.2 + d3.2 * s.speed * dt) }
  else s

/-- The closed set of power-up kinds (Powerup.type). -/
inductive PKind
  | invincible
  | slow
  | score
  | mystery
deriving DecidableEq

/-- A Power-up (class Powerup). -/
structure Powerup where
  pos : ℝ × ℝ
  type : PKind
  active : Bool

/-- One persisted ranked-list entry: `{"name": ..., "score": int(...)}`. -/
structure ScoreEntry where
  name : String
  score : ℤ
deriving DecidableEq

/-- The comparison realised by `sort(key=lambda s: s["score"], reverse=True)`:
Python's stable sort in descending score order. -/
def entryLe (a b : ScoreEntry) : Bool := decide (b.score ≤ a.score)

/-- SharkChaseGame.update_high_scores (lines 240-245): append the new entry,
stable-sort descending by score, truncate to the top 5 (the result is then
persisted via save_high_scores). -/
noncomputable def updateHighScores (username : String) (score : ℝ)
    (hs : List ScoreEntry) : List ScoreEntry :=
  ((hs ++ [({ name := username, score := pyInt score } : ScoreEntry)]).mergeSort entryLe).take 5

/-- SharkChaseGame.load_high_scores (lines 232-236).  `fileExists` models
`os.path.exists(HIGH_SCORE_FILE)`; `parsed` is the outcome of `json.load` on
the file: `.error` when the contents are malformed (in which case `json.load`
raises) and `.ok` with the decoded list otherwise.  The source wraps the call
in no try/except, so the parse outcome is returned unchanged. -/
def loadHighScores (fileExists : Bool) (parsed : Except String (List ScoreEntry)) :
    Except String (List ScoreEntry) :=
  if fileExists then parsed else Except.ok []

/-- The session states (GAME_STATES, lines 15-20). -/
inductive GState
  | menu
  | playing
  | gameover
  | nameInput
deriving DecidableEq

/-- Python `str.strip()` with no argument: remove whitespace characters from
both ends of the string. -/
def pyStrip (s : String) : String :=
  ⟨((s.data.dropWhile Char.isWhitespace).reverse.dropWhile Char.isWhitespace).reverse⟩

/-- A KEYDOWN event delivered while in the NAME_INPUT state.  For `text`,
`u` is `event.unicode` and `printable` the outcome of `u.isprintable()`. -/
inductive NameEvent
  | ret
  | backspace
  | text (u : String) (printable : Bool)

/-- The NAME_INPUT branch of SharkChaseGame.handle_events (lines 351-360),
returning the new `(username, username_input, state)`.  RETURN commits the
stripped buffer when it is non-empty and otherwise writes the literal
default `"Player"`; BACKSPACE drops the last buffered character; any other
key appends `event.unicode` when it is printable. -/
def nameInputKey (username buffer : String) (ev : NameEvent) :
    String × String × GState :=
  match ev with
  | NameEvent.ret =>
      (if pyStrip buffer ≠ "" then pyStrip buffer else "Player", buffer, GState.menu)
  | NameEvent.backspace => (username, buffer.dropRight 1, GState.nameInput)
  | NameEvent.text u printable =>
      (username, if printable then buffer ++ u else buffer, GState.nameInput)

/-- The three concrete power-up effects a `mystery` pickup can resolve to
(`random.choice(["invincible", "slow", "score"])`, line 311). -/
inductive Effect
  | invincible
  | slow
  | score
deriving DecidableEq

/-- Oracle for the random draws a single frame can consume: `jitter i` is the
pair of `random.uniform(-0.3, 0.3)` offsets used by the `i`-th Shark's
update, `mystery i` the effect chosen for the `i`-th Powerup if it is a
picked-up mystery, `side`/`edgeCoord` the draws of spawn_shark, and
`powerupPos`/`powerupKind` the draws of spawn_powerup. -/
structure Rng where
  jitter : ℕ → ℝ × ℝ
  mystery : ℕ → Effect
  side : ℕ
  edgeCoord : ℝ
  powerupPos : ℝ × ℝ
  powerupKind : PKind

/-- The session state owned by SharkChaseGame that the per-frame update can
read or write (the screen, fonts, buttons and bubbles are presentation). -/
structure Game where
  state : GState
  username : String
  usernameInput : String
  difficulty : ℤ
  spawnRate : ℤ
  lastSpawnTime : ℤ
  gameTime : ℝ
  score : ℝ
  powerupSpawnRate : ℤ
  lastPowerupSpawnTime : ℤ
  player : Fish
  sharks : List Shark
  powerups : List Powerup
  highScores : List ScoreEntry

/-- SharkChaseGame.spawn_shark (lines 262-278): a random side, a random
coordinate along it, and `speed = 150 + difficulty * 40`. -/
noncomputable def spawnShark (difficulty : ℤ) (rng : Rng) : Shark :=
  let xy : ℝ × ℝ :=
    if rng.side = 0 then (-100, rng.edgeCoord)
    else if rng.side = 1 then (screenWidth + 100, rng.edgeCoord)
    else if rng.side = 2 then (rng.edgeCoord, -100)
    else (rng.edgeCoord, screenHeight + 100)
  { pos := xy, speed := 150 + (difficulty : ℝ) * 40 }

/-- SharkChaseGame.spawn_powerup (lines 280-286). -/
def spawnPowerup (rng : Rng) : Powerup :=
  { pos := rng.powerupPos, type := rng.powerupKind, active := true }

/-- Application of one resolved power-up effect (the bodies of the branches
in lines 302-319): invincibility for 3 seconds, halving every live Shark's
speed, or +200 score. -/
noncomputable def applyEffect (e : Effect) (player : Fish) (sharks : List Shark)
    (score : ℝ) : Fish × List Shark × ℝ :=
  match e with
  | Effect.invincible =>
      ({ player with invincible := true, invincibleTimer := 3 }, sharks, score)
  | Effect.slow =>
      (player, sharks.map (fun s => { s with speed := s.speed * 0.5 }), score)
  | Effect.score => (player, sharks, score + 200)

/-- One iteration of the Shark loop of SharkChaseGame.update (lines 295-299):
advance the Shark toward the Player's center, then, if it overlaps the
non-invincible Player, call update_high_scores and set the state to
GAMEOVER.  The accumulator carries the updated Sharks, the ranked list and
the state; the Player's data is fixed for the whole pass. -/
noncomputable def sharkStep (dt : ℝ) (target : ℝ × ℝ) (username : String)
    (score : ℝ) (playerPos : ℝ × ℝ) (playerInvincible : Bool) (rng : Rng)
    (acc : List Shark × List ScoreEntry × GState) (is : ℕ × Shark) :
    List Shark × List ScoreEntry × GState :=
  let s := sharkUpdate is.2 dt target (rng.jitter is.1)
  if collidesWith s.pos sharkSize playerPos fishSize && !playerInvincible then
    (acc.1 ++ [s], updateHighScores username score acc.2.1, GState.gameover)
  else
    (acc.1 ++ [s], acc.2.1, acc.2.2)

/-- One iteration of the Powerup loop of SharkChaseGame.update (lines
300-320): on overlap with the Player, apply the effect for the Powerup's
kind (a mystery kind first resolves through the oracle) and deactivate it.
The accumulator carries the Player, the Sharks, the score and the processed
Powerups. -/
noncomputable def powerupStep (rng : Rng)
    (acc : Fish × List Shark × ℝ × List Powerup) (ip : ℕ × Powerup) :
    Fish × List Shark × ℝ × List Powerup :=
  let player := acc.1
  let sharks := acc.2.1
  let score := acc.2.2.1
  let done := acc.2.2.2
  let p := ip.2
  if collidesWith p.pos powerupSize player.pos fishSize then
    let r :=
      match p.type with
      | PKind.invincible => applyEffect Effect.invincible player sharks score
      | PKind.slow => applyEffect Effect.slow player sharks score
      | PKind.score => applyEffect Effect.score player sharks score
      | PKind.mystery => applyEffect (rng.mystery ip.1) player sharks score
    (r.1, r.2.1, r.2.2, done ++ [{ p with active := false }])
  else
    (player, sharks, score, done ++ [p])

/-- SharkChaseGame.update (lines 288-329).  While PLAYING: advance time and
score, update the Player, run the Shark loop (which may submit the score and
move to GAMEOVER, once per overlapping Shark), run the Powerup loop, drop
inactive Powerups, and run the two timestamp-driven spawners.  In any other
state the frame changes nothing.  `now` stands for `pygame.time.get_ticks()`
(the source reads it up to four times in one frame; within one frame the
embedding uses a single instant). -/
noncomputable def gameUpdate (g : Game) (dt : ℝ) (keys : Keys) (now : ℤ)
    (rng : Rng) : Game :=
  if g.state = GState.playing then
    let score := g.score + dt * 20
    let player := fishUpdate g.player dt keys
    let c := rectCenter (getRect player.pos fishSize 0)
    let target : ℝ × ℝ := ((c.1 : ℝ), (c.2 : ℝ))
    let sh := g.sharks.enum.foldl
      (sharkStep dt target g.username score player.pos player.invincible rng)
      ([], g.highScores, g.state)
    let pw := g.powerups.enum.foldl (powerupStep rng) (player, sh.1, score, [])
    let powerupsLive := pw.2.2.2.filter (fun p => p.active)
    let sharksAfter :=
      if g.spawnRate < now - g.lastSpawnTime then pw.2.1 ++ [spawnShark g.difficulty rng]
      else pw.2.1
    let lastSpawn := if g.spawnRate < now - g.lastSpawnTime then now else g.lastSpawnTime
    let powerupsAfter :=
      if g.powerupSpawnRate < now - g.lastPowerupSpawnTime then powerupsLive ++ [spawnPowerup rng]
      else powerupsLive
    let lastPow :=
      if g.powerupSpawnRate < now - g.lastPowerupSpawnTime then now
      else g.lastPowerupSpawnTime
    { g with
      gameTime := g.gameTime + dt,
      score := pw.2.2.1,
      player := pw.1,
      sharks := sharksAfter,
      powerups := powerupsAfter,
      highScores := sh.2.1,
      state := sh.2.2,
      lastSpawnTime := lastSpawn,
      lastPowerupSpawnTime := lastPow }
  else g

/-! Helper lemmas about the vector norm. -/

theorem vmag_nonneg (v : ℝ × ℝ) : 0 ≤ vmag v := Real.sqrt_nonneg _

theorem vmag_smul (v : ℝ × ℝ) (c : ℝ) : vmag (v.1 * c, v.2 * c) = |c| * vmag v := by
  unfold vmag
  have h : (v.1 * c) ^ 2 + (v.2 * c) ^ 2 = (v.1 ^ 2 + v.2 ^ 2) * c ^ 2 := by ring
  rw [h, Real.sqrt_mul (by positivity), Real.sqrt_sq_eq_abs, mul_comm]

theorem vmag_pos_iff (v : ℝ × ℝ) : 0 < vmag v ↔ v ≠ (0, 0) := by
  unfold vmag
  rw [Real.sqrt_pos]
  constructor
  · intro h hv
    rw [hv] at h
    norm_num at h
  · intro hv
    rcases lt_or_eq_of_le (by positivity : (0 : ℝ) ≤ v.1 ^ 2 + v.2 ^ 2) with h | h
    · exact h
    · exfalso
      apply hv
      have h1 : v.1 = 0 := by nlinarith [sq_nonneg v.1, sq_nonneg v.2]
      have h2 : v.2 = 0 := by nlinarith [sq_nonneg v.1, sq_nonneg v.2]
      exact Prod.ext h1 h2

theorem vmag_vnorm (v : ℝ × ℝ) (h : 0 < vmag v) : vmag (vnorm v) = 1 := by
  unfold vnorm
  rw [div_eq_mul_inv, div_eq_mul_inv, vmag_smul, abs_inv, abs_of_pos h,
    inv_mul_cancel₀ (ne_of_gt h)]

theorem moveOffset_keysLeft : moveOffset keysLeft 345 1 = (-345, 0) := by
  have hv : vmag ((-1 : ℝ), (0 : ℝ)) = 1 := by
    unfold vmag
    norm_num
  simp only [moveOffset, rawVelocity, keysLeft]
  norm_num [hv, vnorm]

/-! Helper lemmas evaluating the geometry on concrete values. -/

theorem pyInt_intCast (n : ℤ) : pyInt ((n : ℝ)) = n := by
  unfold pyInt
  split
  · exact Int.floor_intCast n
  · exact Int.ceil_intCast n

theorem getRect_powerup18 : getRect (430, 320) powerupSize 18 = ⟨448, 338, -6, -6⟩ := by
  simp only [getRect, powerupSize, PyRect.mk.injEq]
  norm_num [pyInt]
  rw [show (-6 : ℝ) = ((-6 : ℤ) : ℝ) by norm_num]
  exact Int.ceil_intCast _

theorem getRect_player18 : getRect (400, 300) fishSize 18 = ⟨418, 318, 64, 34⟩ := by
  simp only [getRect, fishSize, PyRect.mk.injEq]
  norm_num [pyInt]

theorem getRect_shark18 : getRect (450, 330) sharkSize 18 = ⟨468, 348, 104, 54⟩ := by
  simp only [getRect, sharkSize, PyRect.mk.injEq]
  norm_num [pyInt]

theorem collidePowerupPlayer :
    collidesWith (430, 320) powerupSize (400, 300) fishSize = true := by
  unfold collidesWith overlaps
  rw [getRect_powerup18, getRect_player18]
  decide

theorem collideSharkPlayer :
    collidesWith (450, 330) sharkSize (400, 300) fishSize = true := by
  unfold collidesWith overlaps
  rw [getRect_shark18, getRect_player18]
  decide

/-! Concrete frame scenarios used by the frame-level claims. -/

/-- Deterministic oracle for the concrete frame evaluations: zero jitter and
fixed draws. -/
noncomputable def rng0 : Rng :=
  { jitter := fun _ => (0, 0), mystery := fun _ => Effect.score, side := 0,
    edgeCoord := 0, powerupPos := (0, 0), powerupKind := PKind.score }

/-- A Player resting mid-field, not invincible. -/
noncomputable def fishA : Fish :=
  { pos := (400, 300), speed := 345, invincible := false, invincibleTimer := 0,
    direction := 1 }

/-- A Shark 100 pixels above the Player's center. -/
noncomputable def sharkB : Shark := { pos := (450, 235), speed := 95 }

/-- The Shark of the C1/C7 scenarios after its frame movement. -/
noncomputable def sharkB' : Shark := { pos := (450, 330), speed := 95 }

theorem moveOffset_keysNone : moveOffset keysNone 345 1 = (0, 0) := by
  simp only [moveOffset, rawVelocity, keysNone]
  norm_num [vmag, Real.sqrt_zero]

theorem fishUpdate_fishA : fishUpdate fishA 1 keysNone = fishA := by
  simp only [fishUpdate, fishA, moveOffset_keysNone]
  norm_num [newDirection, keysNone, screenWidth, screenHeight, fishSize,
    min_def, max_def, Fish.mk.injEq]

theorem rectCenter_fishA :
    rectCenter (getRect (400, 300) fishSize 0) = (450, 335) := by
  have h : getRect (400, 300) fishSize 0 = ⟨400, 300, 100, 70⟩ := by
    simp only [getRect, fishSize, PyRect.mk.injEq]
    norm_num [pyInt]
  rw [h]
  decide

theorem sharkUpdate_sharkB :
    sharkUpdate sharkB 1 (450, 335) 0 = sharkB' := by
  have h100 : vmag ((0 : ℝ), (100 : ℝ)) = 100 := by
    unfold vmag
    rw [show (0 : ℝ) ^ 2 + (100 : ℝ) ^ 2 = 100 ^ 2 by norm_num,
      Real.sqrt_sq (by norm_num : (0 : ℝ) ≤ 100)]
  have h1 : vmag ((0 : ℝ), (1 : ℝ)) = 1 := by
    unfold vmag
    norm_num [Real.sqrt_one]
  simp only [sharkUpdate, sharkB, sharkB']
  norm_num [h100, h1, vnorm, Prod.fst_zero, Prod.snd_zero, Shark.mk.injEq]

theorem pyInt_twenty : pyInt (20 : ℝ) = 20 := by
  norm_num [pyInt]

theorem updateHighScores_nil :
    updateHighScores "A" 20 [] = [⟨"A", 20⟩] := by
  unfold updateHighScores
  simp [pyInt_twenty, List.mergeSort_singleton]

theorem updateHighScores_one :
    updateHighScores "A" 20 [⟨"A", 20⟩] = [⟨"A", 20⟩, ⟨"A", 20⟩] := by
  unfold updateHighScores
  simp only [pyInt_twenty, List.cons_append, List.nil_append]
  rw [List.mergeSort_of_sorted (by simp [List.pairwise_cons, entryLe])]
  rfl

/-! Claim theorems. -/

/-- C2 counterexample: with both opposite keys held on each axis the intent
is `(1, 1)`, not `(0, 0)` — the keys do not cancel. -/
theorem c2_counterexample :
    rawVelocity ⟨true, true, true, true⟩ = (1, 1) ∧
    (rawVelocity ⟨true, true, true, true⟩).1 ≠ 0 := by decide

/-- C2 amended: when both opposite keys of one axis are held, the key whose
branch is checked second wins: right forces the x intent to 1 whatever the
left key does, and down forces the y intent to 1 whatever the up key does. -/
theorem c2_positive_key_priority (l r u d : Bool) :
    (rawVelocity ⟨l, true, u, d⟩).1 = 1 ∧ (rawVelocity ⟨l, r, u, true⟩).2 = 1 :=
  ⟨rfl, rfl⟩

/-- C3 counterexample: confirming an empty name buffer does not keep the
previous username "Alice"; it writes the literal default "Player". -/
theorem c3_counterexample :
    (nameInputKey "Alice" " " NameEvent.ret).1 = "Player" ∧
    (nameInputKey "Alice" " " NameEvent.ret).1 ≠ "Alice" := by decide

/-- C3 amended: on confirm, the username becomes the trimmed buffer when that
is non-empty and the literal default "Player" otherwise (the previously held
username is discarded either way), and the state returns to the menu. -/
theorem c3_confirm_commits_default (u buf : String) :
    (nameInputKey u buf NameEvent.ret).1 =
      (if pyStrip buf = "" then "Player" else pyStrip buf) ∧
    (nameInputKey u buf NameEvent.ret).2.2 = GState.menu := by
  refine ⟨?_, rfl⟩
  by_cases h : pyStrip buf = "" <;> simp [nameInputKey, h]

/-- C4 counterexample: when the score file exists but its contents are
malformed, the `json.load` failure propagates out of load_high_scores; the
loader does not return the empty ranked list. -/
theorem c4_counterexample :
    loadHighScores true (Except.error "Expecting value") ≠
      Except.ok ([] : List ScoreEntry) := by
  simp [loadHighScores]

/-- C4 amended: load_high_scores yields the empty ranked list only when the
score file is missing; when the file exists the raw `json.load` outcome is
returned unchanged, so a parse error propagates (the recovery the spec
describes does not exist in the code). -/
theorem c4_load_recovery_only_for_missing_file (p : Except String (List ScoreEntry)) :
    loadHighScores false p = Except.ok [] ∧ loadHighScores true p = p := by
  simp [loadHighScores]

/-- C10: after every Player update, whatever the timestep, the input and the
previous state, the clamped position keeps the whole bounding box inside
`[0, screenWidth - 100] × [0, screenHeight - 70]`. -/
theorem c10_player_stays_in_field (f : Fish) (dt : ℝ) (k : Keys) :
    0 ≤ (fishUpdate f dt k).pos.1 ∧
    (fishUpdate f dt k).pos.1 ≤ screenWidth - fishSize.1 ∧
    0 ≤ (fishUpdate f dt k).pos.2 ∧
    (fishUpdate f dt k).pos.2 ≤ screenHeight - fishSize.2 := by
  unfold fishUpdate
  exact ⟨le_max_left _ _,
    max_le (by norm_num [screenWidth, fishSize]) (min_le_left _ _),
    le_max_left _ _,
    max_le (by norm_num [screenHeight, fishSize]) (min_le_left _ _)⟩

/-- A Player standing at the left wall, as after Fish(0, 300). -/
noncomputable def c9Fish : Fish :=
  { pos := (0, 300), speed := 345, invincible := false, invincibleTimer := 0,
    direction := 1 }

/-- C9 counterexample: at the left wall with the left key held, the clamp
absorbs the whole step, so the frame's position change has magnitude 0, not
`speed * dt = 345`. -/
theorem c9_counterexample :
    vmag ((fishUpdate c9Fish 1 keysLeft).pos.1 - c9Fish.pos.1,
          (fishUpdate c9Fish 1 keysLeft).pos.2 - c9Fish.pos.2) ≠ c9Fish.speed * 1 := by
  have hpos : (fishUpdate c9Fish 1 keysLeft).pos = (0, 300) := by
    simp only [fishUpdate, c9Fish, moveOffset_keysLeft, screenWidth, screenHeight, fishSize]
    norm_num
  rw [hpos]
  simp only [c9Fish]
  norm_num [vmag, Real.sqrt_zero]

/-- C9 amended: for a non-zero intent the displacement the Player update adds
before clamping has magnitude exactly `speed * dt`, however many axes are
active; the post-clamp position change can be shorter (it is 0 at a wall,
see the counterexample). -/
theorem c9_unclamped_displacement (k : Keys) (speed dt : ℝ)
    (hs : 0 ≤ speed) (hdt : 0 ≤ dt) (hk : rawVelocity k ≠ (0, 0)) :
    vmag (moveOffset k speed dt) = speed * dt := by
  have hvr : (((rawVelocity k).1 : ℝ), ((rawVelocity k).2 : ℝ)) ≠ ((0 : ℝ), (0 : ℝ)) := by
    intro hEq
    apply hk
    have h1 : ((rawVelocity k).1 : ℝ) = 0 := congrArg Prod.fst hEq
    have h2 : ((rawVelocity k).2 : ℝ) = 0 := congrArg Prod.snd hEq
    have h1i : (rawVelocity k).1 = 0 := by exact_mod_cast h1
    have h2i : (rawVelocity k).2 = 0 := by exact_mod_cast h2
    exact Prod.ext h1i h2i
  have hpos : 0 < vmag (((rawVelocity k).1 : ℝ), ((rawVelocity k).2 : ℝ)) :=
    (vmag_pos_iff _).2 hvr
  simp only [moveOffset, if_pos hpos]
  calc vmag ((vnorm (((rawVelocity k).1 : ℝ), ((rawVelocity k).2 : ℝ))).1 * speed * dt,
          (vnorm (((rawVelocity k).1 : ℝ), ((rawVelocity k).2 : ℝ))).2 * speed * dt)
      = |speed * dt| * vmag (vnorm (((rawVelocity k).1 : ℝ), ((rawVelocity k).2 : ℝ))) := by
        rw [mul_assoc, mul_assoc]
        exact vmag_smul _ _
    _ = speed * dt := by
        rw [vmag_vnorm _ hpos, mul_one, abs_of_nonneg (mul_nonneg hs hdt)]

/-- C9 amended witness: a concrete single-axis input realising the amended
statement. -/
theorem c9_unclamped_displacement_witness :
    vmag (moveOffset keysLeft 345 1) = 345 * 1 :=
  c9_unclamped_displacement keysLeft 345 1 (by norm_num) (by norm_num) (by decide)

/-- C5 counterexample: the pickup collision test does report overlap for a
Power-up despite its degenerate eroded box: a 30×30 Power-up at (430, 320)
against the 100×70 Player at (400, 300) collides under the fixed shrink 18,
because pygame normalizes the negative-size box instead of treating it as
empty. -/
theorem c5_counterexample :
    collidesWith (430, 320) powerupSize (400, 300) fishSize = true :=
  collidePowerupPlayer

/-- C6 counterexample: with `s = 18`, which is at least half of the smaller
dimension (30) of the Power-up box, the overlap predicate returns `true`,
not `false`: the negative-size eroded box is normalized by pygame, not
treated as empty. -/
theorem c6_counterexample :
    min (min powerupSize.1 powerupSize.2) (min fishSize.1 fishSize.2) / 2 ≤ (18 : ℝ) ∧
    overlaps (430, 320) powerupSize (400, 300) fishSize 18 = true := by
  constructor
  · norm_num [powerupSize, fishSize]
  · unfold overlaps
    rw [getRect_powerup18, getRect_player18]
    decide

/-- C6 amended: the predicate always evaluates to a Bool and returns `false`
whenever the truncated eroded width or height of either box is exactly zero
(pygame's zero-size guard); but for a shrink strictly beyond half a
dimension the eroded box has negative size, which pygame normalizes, and
overlap can then be reported (see the counterexample). -/
theorem c6_zero_dimension_no_overlap (posA sizeA posB sizeB : ℝ × ℝ) (s : ℝ)
    (h : pyInt (sizeA.1 - 2 * s) = 0 ∨ pyInt (sizeA.2 - 2 * s) = 0 ∨
         pyInt (sizeB.1 - 2 * s) = 0 ∨ pyInt (sizeB.2 - 2 * s) = 0) :
    overlaps posA sizeA posB sizeB s = false := by
  unfold overlaps colliderect getRect
  exact if_pos h

/-- C6 amended witness: at `s = 15`, exactly half of the Power-up's 30-pixel
dimension, the eroded width is zero and no overlap is reported. -/
theorem c6_zero_dimension_no_overlap_witness :
    overlaps (430, 320) powerupSize (400, 300) fishSize 15 = false :=
  c6_zero_dimension_no_overlap _ _ _ _ 15 (Or.inl (by norm_num [powerupSize, pyInt]))

/-- A Playing frame in which two Sharks simultaneously hit the non-invincible
Player: both at (450, 235) with speed 95, Player resting at (400, 300). -/
noncomputable def c1Game : Game :=
  { state := GState.playing, username := "A", usernameInput := "",
    difficulty := 1, spawnRate := 2000, lastSpawnTime := 0, gameTime := 0,
    score := 0, powerupSpawnRate := 10000, lastPowerupSpawnTime := 0,
    player := fishA, sharks := [sharkB, sharkB], powerups := [],
    highScores := [] }

/-- C1: when two Sharks overlap the non-invincible Player in the same frame,
the code submits the score once per overlapping Shark: starting from an
empty ranked list, the frame leaves two identical entries, not exactly one
as the claim requires. -/
theorem c1_double_submission :
    (gameUpdate c1Game 1 keysNone 1000 rng0).highScores = [⟨"A", 20⟩, ⟨"A", 20⟩] ∧
    (gameUpdate c1Game 1 keysNone 1000 rng0).state = GState.gameover := by
  have hfp : fishA.pos = (400, 300) := rfl
  have hfi : fishA.invincible = false := rfl
  have hj : ∀ i, rng0.jitter i = (0, 0) := fun _ => rfl
  have hsp : sharkB'.pos = (450, 330) := rfl
  have h : gameUpdate c1Game 1 keysNone 1000 rng0 =
      { state := GState.gameover, username := "A", usernameInput := "",
        difficulty := 1, spawnRate := 2000, lastSpawnTime := 0, gameTime := 1,
        score := 20, powerupSpawnRate := 10000, lastPowerupSpawnTime := 0,
        player := fishA, sharks := [sharkB', sharkB'], powerups := [],
        highScores := [⟨"A", 20⟩, ⟨"A", 20⟩] } := by
    simp only [gameUpdate, c1Game]
    norm_num [hfp, hfi, hj, hsp, fishUpdate_fishA, rectCenter_fishA, sharkStep,
      sharkUpdate_sharkB, collideSharkPlayer, updateHighScores_nil,
      updateHighScores_one, List.enum_cons, List.enumFrom_cons,
      List.enumFrom_nil, List.enum_nil, Game.mk.injEq]
  rw [h]
  exact ⟨rfl, rfl⟩

/-- A score Power-up lying on the Player of the concrete scenarios. -/
noncomputable def puScore : Powerup :=
  { pos := (430, 320), type := PKind.score, active := true }

/-- A Playing frame with no Sharks and one score Power-up overlapping the
Player. -/
noncomputable def c5Game : Game :=
  { state := GState.playing, username := "A", usernameInput := "",
    difficulty := 1, spawnRate := 2000, lastSpawnTime := 0, gameTime := 0,
    score := 0, powerupSpawnRate := 10000, lastPowerupSpawnTime := 0,
    player := fishA, sharks := [], powerups := [puScore],
    highScores := [] }

/-- C5 amended: Power-ups are in fact picked up and their effects applied: in
a Playing frame with a score Power-up at (430, 320) and the Player at
(400, 300), the frame consumes the Power-up and adds its +200 bonus on top
of the 20 survival points. -/
theorem c5_powerup_effect_applied :
    (gameUpdate c5Game 1 keysNone 1000 rng0).score = 220 ∧
    (gameUpdate c5Game 1 keysNone 1000 rng0).powerups = [] := by
  have hfp : fishA.pos = (400, 300) := rfl
  have hpp : puScore.pos = (430, 320) := rfl
  have hpt : puScore.type = PKind.score := rfl
  have h : gameUpdate c5Game 1 keysNone 1000 rng0 =
      { state := GState.playing, username := "A", usernameInput := "",
        difficulty := 1, spawnRate := 2000, lastSpawnTime := 0, gameTime := 1,
        score := 220, powerupSpawnRate := 10000, lastPowerupSpawnTime := 0,
        player := fishA, sharks := [], powerups := [],
        highScores := [] } := by
    simp only [gameUpdate, c5Game]
    norm_num [hfp, hpp, hpt, fishUpdate_fishA, rectCenter_fishA, powerupStep,
      applyEffect, collidePowerupPlayer, List.enum_cons, List.enumFrom_cons,
      List.enumFrom_nil, List.enum_nil, List.filter_cons, Game.mk.injEq]
  rw [h]
  exact ⟨rfl, rfl⟩

/-- A Playing frame in which a Shark hits the Player and a score Power-up
also overlaps the Player. -/
noncomputable def c7Game : Game :=
  { state := GState.playing, username := "A", usernameInput := "",
    difficulty := 1, spawnRate := 2000, lastSpawnTime := 0, gameTime := 0,
    score := 0, powerupSpawnRate := 10000, lastPowerupSpawnTime := 0,
    player := fishA, sharks := [sharkB], powerups := [puScore],
    highScores := [] }

/-- C7 counterexample: in the lethal frame the transition to GameOver and the
score submission (20 points) happen in the Shark pass, yet the Power-up pass
afterwards still mutates the session: the frame ends with score 220, so
session state did change after the transition within the same frame. -/
theorem c7_counterexample :
    (gameUpdate c7Game 1 keysNone 1000 rng0).state = GState.gameover ∧
    (gameUpdate c7Game 1 keysNone 1000 rng0).highScores = [⟨"A", 20⟩] ∧
    (gameUpdate c7Game 1 keysNone 1000 rng0).score = 220 := by
  have hfp : fishA.pos = (400, 300) := rfl
  have hfi : fishA.invincible = false := rfl
  have hj : ∀ i, rng0.jitter i = (0, 0) := fun _ => rfl
  have hsp : sharkB'.pos = (450, 330) := rfl
  have hpp : puScore.pos = (430, 320) := rfl
  have hpt : puScore.type = PKind.score := rfl
  have h : gameUpdate c7Game 1 keysNone 1000 rng0 =
      { state := GState.gameover, username := "A", usernameInput := "",
        difficulty := 1, spawnRate := 2000, lastSpawnTime := 0, gameTime := 1,
        score := 220, powerupSpawnRate := 10000, lastPowerupSpawnTime := 0,
        player := fishA, sharks := [sharkB'], powerups := [],
        highScores := [⟨"A", 20⟩] } := by
    simp only [gameUpdate, c7Game]
    norm_num [hfp, hfi, hj, hsp, hpp, hpt, fishUpdate_fishA, rectCenter_fishA,
      sharkStep, sharkUpdate_sharkB, collideSharkPlayer, updateHighScores_nil,
      powerupStep, applyEffect, collidePowerupPlayer, List.enum_cons,
      List.enumFrom_cons, List.enumFrom_nil, List.enum_nil, List.filter_cons,
      Game.mk.injEq]
  rw [h]
  exact ⟨rfl, rfl, rfl⟩

/-- C7 amended: after the lethal frame the simulation is frozen — in any
state other than Playing a frame update changes nothing at all; but within
the lethal frame itself the remaining passes still run (see the
counterexample, where a Power-up still changed the score after the
transition). -/
theorem c7_no_mutation_outside_playing (g : Game) (dt : ℝ) (k : Keys)
    (now : ℤ) (rng : Rng) (h : g.state ≠ GState.playing) :
    gameUpdate g dt k now rng = g := by
  unfold gameUpdate
  exact if_neg h

/-- A GameOver session used to witness the freeze theorem. -/
noncomputable def gOverGame : Game :=
  { state := GState.gameover, username := "A", usernameInput := "",
    difficulty := 1, spawnRate := 2000, lastSpawnTime := 0, gameTime := 1,
    score := 20, powerupSpawnRate := 10000, lastPowerupSpawnTime := 0,
    player := fishA, sharks := [sharkB'], powerups := [],
    highScores := [⟨"A", 20⟩] }

/-- C7 amended witness: a GameOver frame leaves the session untouched. -/
theorem c7_no_mutation_outside_playing_witness :
    gameUpdate gOverGame 1 keysNone 1000 rng0 = gOverGame :=
  c7_no_mutation_outside_playing gOverGame 1 keysNone 1000 rng0 (by simp [gOverGame])

/-- C8: after every submit, the ranked list never exceeds 5 entries, is
sorted descending by score, and entries of equal score keep their relative
insertion order: for every score value the output's entries with that score
form a sublist of the input-plus-new-entry list (stability of the sort). -/
theorem c8_ranked_list_invariants (u : String) (s : ℝ) (hs : List ScoreEntry) :
    (updateHighScores u s hs).length ≤ 5 ∧
    List.Sorted (fun a b : ScoreEntry => b.score ≤ a.score) (updateHighScores u s hs) ∧
    ∀ v : ℤ, ((updateHighScores u s hs).filter (fun e => e.score == v)).Sublist
      ((hs ++ [({ name := u, score := pyInt s } : ScoreEntry)]).filter (fun e => e.score == v)) := by
  have htrans : ∀ a b c : ScoreEntry,
      entryLe a b = true → entryLe b c = true → entryLe a c = true := by
    intro a b c hab hbc
    simp only [entryLe, decide_eq_true_eq] at hab hbc ⊢
    exact le_trans hbc hab
  have htotal : ∀ a b : ScoreEntry, (entryLe a b || entryLe b a) = true := by
    intro a b
    simp only [entryLe, Bool.or_eq_true, decide_eq_true_eq]
    exact le_total _ _
  refine ⟨?_, ?_, ?_⟩
  · unfold updateHighScores
    simp [List.length_take]
  · unfold updateHighScores
    have hp := List.sorted_mergeSort htrans htotal (hs ++ [({ name := u, score := pyInt s } : ScoreEntry)])
    have hp5 := List.Pairwise.sublist (List.take_sublist 5 _) hp
    exact hp5.imp (by
      intro a b hab
      simpa only [entryLe, decide_eq_true_eq] using hab)
  · intro v
    unfold updateHighScores
    have h1 : ((((hs ++ [({ name := u, score := pyInt s } : ScoreEntry)]).mergeSort entryLe).take 5).filter
          (fun e => e.score == v)).Sublist
        (((hs ++ [({ name := u, score := pyInt s } : ScoreEntry)]).mergeSort entryLe).filter (fun e => e.score == v)) :=
      (List.take_sublist 5 _).filter _
    have hpw : ((hs ++ [({ name := u, score := pyInt s } : ScoreEntry)]).filter
        (fun e => e.score == v)).Pairwise (fun a b => entryLe a b = true) := by
      apply List.pairwise_of_forall_mem_list
      intro a ha b hb
      have ha2 := (List.mem_filter.mp ha).2
      have hb2 := (List.mem_filter.mp hb).2
      simp only [beq_iff_eq] at ha2 hb2
      simp [entryLe, ha2, hb2]
    have hA : ((hs ++ [({ name := u, score := pyInt s } : ScoreEntry)]).filter (fun e => e.score == v)).Sublist
        ((hs ++ [({ name := u, score := pyInt s } : ScoreEntry)]).mergeSort entryLe) :=
      List.sublist_mergeSort htrans htotal hpw (List.filter_sublist _)
    have h2 := hA.filter (fun e => e.score == v)
    rw [List.filter_filter] at h2
    have h2' : ((hs ++ [({ name := u, score := pyInt s } : ScoreEntry)]).filter (fun e => e.score == v)).Sublist
        (((hs ++ [({ name := u, score := pyInt s } : ScoreEntry)]).mergeSort entryLe).filter (fun e => e.score == v)) := by
      have hpp : (fun a : ScoreEntry => (a.score == v) && (a.score == v)) =
          (fun a : ScoreEntry => a.score == v) := by
        funext a
        exact Bool.and_self _
      rwa [hpp] at h2
    have hlen : (((hs ++ [({ name := u, score := pyInt s } : ScoreEntry)]).mergeSort entryLe).filter
          (fun e => e.score == v)).length =
        ((hs ++ [({ name := u, score := pyInt s } : ScoreEntry)]).filter (fun e => e.score == v)).length :=
      ((List.mergeSort_perm _ entryLe).filter _).length_eq
    have h3 : (((hs ++ [({ name := u, score := pyInt s } : ScoreEntry)]).mergeSort entryLe).filter
          (fun e => e.score == v)) =
        ((hs ++ [({ name := u, score := pyInt s } : ScoreEntry)]).filter (fun e => e.score == v)) :=
      (h2'.eq_of_length hlen.symm).symm
    rw [h3] at h1
    exact h1

end Sardines
